import Mathlib

/-!
# srepd: the command layer of the incident dashboard (pkg/tui/commands.go)

A shallow embedding of `pkg/tui/commands.go`.

* Go slices are lists; `len(s) == 0` is `s.length == 0` (a nil slice is the empty list).
* The Go `error` interface is `Option GoError`, `nil` being `none`.
* A pointer that the file never dereferences (`*pagerduty.User`, the elements of
  `[]*pagerduty.Incident`, the pointers returned by the remote calls) is an `Option`,
  `nil` being `none`.  The pointers the file does dereference (`p *pd.Config`,
  `incident *pagerduty.Incident` and `content *os.File` in `addNoteToIncident`) are taken
  non-nil and are plain values.
* A `tea.Cmd` is a function `func() tea.Msg` that may touch the outside world when it is
  run.  It is embedded with explicit state passing: it reads the operating system through
  `Env`, the remote service through the `Client` of the configuration handle, and threads a
  `World` that holds the file system and the ordered record of every external effect.
* A Go function that may act on the outside world before it returns its `tea.Cmd`
  (here `openEditorCmd`) threads the `World` at construction time as well.
* The library functions that `openEditorCmd` calls follow their own sources:
  `exec.Command` looks a bare program name up when the command is built,
  `tea.ExecProcess` only gives the request `execMsg`, and the process is run later, by
  `(*tea.Program).exec`, when the program handles that request.  The record of effects
  holds what changes or leaves the machine (remote calls, files created, read and closed,
  processes started); the lookup of `exec.Command` only reads and is an answer of `Env`.
-/

namespace Srepd

/-! ## Data model (the parts of `pagerduty` and `os` that the file uses) -/

/-- The Go value behind a non-nil `error`: compared by its text. -/
structure GoError where
  text : String
deriving DecidableEq, Repr

/-- The Go `error` interface: `none` is `nil`. -/
abbrev error := Option GoError

/-- A Go `string` holding file content: a sequence of bytes. -/
abbrev GoString := List UInt8

/-- Type `pagerduty.APIObject` (its field `Type` is a Lean keyword and is left out). -/
structure APIObject where
  ID : String
  Summary : String
  HTMLURL : String
deriving DecidableEq, Repr

/-- Type `pagerduty.Assignment`. -/
structure Assignment where
  At : String
  Assignee : APIObject
deriving DecidableEq, Repr

/-- Type `pagerduty.Incident` (it embeds an `APIObject`, whence `ID`). -/
structure Incident where
  ID : String
  Title : String
  Status : String
  Assignments : List Assignment
deriving DecidableEq, Repr

/-- Type `pagerduty.User`. -/
structure User where
  ID : String
  Name : String
  Email : String
deriving DecidableEq, Repr

/-- Type `pagerduty.IncidentAlert`. -/
structure IncidentAlert where
  ID : String
  Status : String
deriving DecidableEq, Repr

/-- Type `pagerduty.IncidentNote`. -/
structure IncidentNote where
  ID : String
  User : Option User
  Content : GoString
deriving DecidableEq, Repr

/-- Type `pagerduty.Team`, as listed in `pd.Config.Teams`. -/
structure Team where
  ID : String
  Name : String
deriving DecidableEq, Repr

/-- Type `pagerduty.ListIncidentsOptions`. -/
structure ListIncidentsOptions where
  Limit : Nat
  Statuses : List String
  TeamIDs : List String
  UserIDs : List String
deriving DecidableEq, Repr

/-- An open `*os.File`: its name and its descriptor. -/
structure File where
  name : String
  fd : Nat
deriving DecidableEq, Repr

/-- Method `(*os.File).Name`. -/
def File.Name (f : File) : String := f.name

/-- Type `exec.Cmd` as built by `exec.Command`: `Path` is the program to run, `Args` starts
with the program name as given, and `Err` is the error, if any, of looking the program
up. -/
structure ExecCmd where
  Path : String
  Args : List String
  Err : error
deriving DecidableEq, Repr

/-! ## Selection predicates -/

/-- The loop of `AssignedToUser` over the assignments, returning at the first match. -/
def AssignedToUser.loop (id : String) : List Assignment → Bool
  | [] => false
  | a :: rest => if a.Assignee.ID == id then true else AssignedToUser.loop id rest

/-- Function `AssignedToUser(i, id)`. -/
def AssignedToUser (i : Incident) (id : String) : Bool :=
  AssignedToUser.loop id i.Assignments

/-- The inner loop of `AssignedToAnyUsers`, over the ids, for one assignment. -/
def AssignedToAnyUsers.inner (a : Assignment) : List String → Bool
  | [] => false
  | id :: rest => if a.Assignee.ID == id then true else AssignedToAnyUsers.inner a rest

/-- The outer loop of `AssignedToAnyUsers`, over the assignments. -/
def AssignedToAnyUsers.outer (ids : List String) : List Assignment → Bool
  | [] => false
  | a :: rest =>
    if AssignedToAnyUsers.inner a ids then true else AssignedToAnyUsers.outer ids rest

/-- Function `AssignedToAnyUsers(i, ids)`. -/
def AssignedToAnyUsers (i : Incident) (ids : List String) : Bool :=
  AssignedToAnyUsers.outer ids i.Assignments

/-! ## The outside world -/

/-- The slice expression `b[lo:hi]`. -/
def slice (b : List UInt8) (lo hi : Nat) : List UInt8 := (b.take hi).drop lo

/-- The conversion `string(b)` of a byte slice: the string has the bytes of `b`. -/
def string (b : List UInt8) : GoString := b

/-- A string literal as a Go string: its UTF-8 bytes. -/
def GoString.lit (s : String) : GoString := s.toUTF8.data.toList

/-- One external effect, as the outside world observes it. -/
inductive Event where
  | GetIncidents (opts : ListIncidentsOptions)
  | GetIncident (id : String)
  | GetAlerts (id : String)
  | GetNotes (id : String)
  | GetCurrentUser
  | AcknowledgeIncident (incidents : List (Option Incident)) (user : Option User)
  | ReassignIncidents (incidents : List (Option Incident)) (user : Option User)
      (users : List (Option User))
  | PostNote (id : String) (user : Option User) (content : GoString)
  | CreateTemp (dir : String) (pattern : String)
  | ReadFile (name : String)
  | Close (file : File)
  | Spawn (c : ExecCmd)
deriving DecidableEq, Repr

/-- The event is a call to the remote service. -/
def Event.isRemote : Event → Bool
  | .GetIncidents _ => true
  | .GetIncident _ => true
  | .GetAlerts _ => true
  | .GetNotes _ => true
  | .GetCurrentUser => true
  | .AcknowledgeIncident _ _ => true
  | .ReassignIncidents _ _ _ => true
  | .PostNote _ _ _ => true
  | _ => false

/-- The event is an access to the file system. -/
def Event.isFileAccess : Event → Bool
  | .CreateTemp _ _ => true
  | .ReadFile _ => true
  | .Close _ => true
  | _ => false

/-- The event is the start of a subprocess. -/
def Event.isSpawn : Event → Bool
  | .Spawn _ => true
  | _ => false

/-- The event is the remote call that acknowledges incidents. -/
def Event.isAcknowledge : Event → Bool
  | .AcknowledgeIncident _ _ => true
  | _ => false

/-- The event is the remote call that reassigns incidents. -/
def Event.isReassign : Event → Bool
  | .ReassignIncidents _ _ _ => true
  | _ => false

/-- The event is the remote call that posts a note. -/
def Event.isPostNote : Event → Bool
  | .PostNote _ _ _ => true
  | _ => false

/-- The state outside the program: the files by name, and every external effect so far,
oldest first. -/
structure World where
  fs : List (String × List UInt8)
  trace : List Event
deriving DecidableEq, Repr

/-- The world after one more effect. -/
def World.record (w : World) (e : Event) : World :=
  { w with trace := w.trace ++ [e] }

/-- Number of subprocesses started so far. -/
def World.spawnCount (w : World) : Nat := w.trace.countP Event.isSpawn

/-- The remote service behind `p.Client` and the helpers of package `pd` that call it: what
each call answers, given the world at the time of the call.  Every call answers a
(result, error) pair. -/
structure Client where
  GetIncidentWithContext : World → String → Option Incident × error
  GetCurrentUserWithContext : World → Option User × error
  GetIncidents : World → ListIncidentsOptions → List Incident × error
  GetAlerts : World → String → List IncidentAlert × error
  GetNotes : World → String → List IncidentNote × error
  AcknowledgeIncident : World → List (Option Incident) → Option User → List Incident × error
  ReassignIncidents : World → List (Option Incident) → Option User → List (Option User) →
    List Incident × error
  PostNote : World → String → Option User → GoString → Option IncidentNote × error

/-- Type `pd.Config`: the configuration handle, with the client and the teams. -/
structure pd.Config where
  Client : Client
  Teams : List Team

/-- What the program cannot decide by itself: the answers of the operating system and the
defaults of package `pd`. -/
structure Env where
  /-- Result of `os.TempDir()`. -/
  TempDir : String
  /-- Outcome of `os.CreateTemp`: the new file, or the error. -/
  CreateTemp : World → String → String → Except GoError File
  /-- The error of opening a file that does not exist. -/
  NotExist : String → GoError
  /-- The error, if any, of reading a file that exists. -/
  ReadFault : World → String → error
  /-- Result of `exec.LookPath(name)`: the resolved path (empty when there is none) and
  the error.  The lookup reads the file system and leaves it as it is. -/
  LookPath : World → String → String × error
  /-- The error, if any, of starting the process of a command. -/
  Start : World → ExecCmd → error
  /-- What a started process does until it exits: its exit error and the files
  afterwards. -/
  Wait : World → ExecCmd → error × List (String × List UInt8)
  /-- The error, if any, of `(*tea.Program).ReleaseTerminal`. -/
  ReleaseTerminal : World → error
  /-- The error, if any, of `(*tea.Program).RestoreTerminal`. -/
  RestoreTerminal : World → error
  /-- Result of `pd.NewListIncidentOptsFromDefaults()`. -/
  ListIncidentDefaults : ListIncidentsOptions

/-! ## Result messages -/

/-- The messages (`tea.Msg`) that the commands of this file return; `execMsg` is the
request of bubbletea to run a command in the foreground and to call `fn` on its error. -/
inductive Msg where
  | updatedIncidentListMsg (incidents : List Incident) (err : error)
  | gotIncidentMsg (incident : Option Incident) (err : error)
  | gotIncidentAlertsMsg (alerts : List IncidentAlert) (err : error)
  | gotIncidentNotesMsg (notes : List IncidentNote) (err : error)
  | gotCurrentUserMsg (user : Option User) (err : error)
  | editorFinishedMsg (err : error) (file : File)
  | acknowledgedIncidentsMsg (incidents : List Incident) (err : error)
  | reassignIncidentsMsg (incidents : List (Option Incident)) (users : List (Option User))
  | reassignedIncidentsMsg (incidents : List Incident)
  | addedIncidentNoteMsg (note : Option IncidentNote) (err : error)
  | errMsg (err : error)
  | execMsg (cmd : ExecCmd) (fn : error → Msg)

/-- The message is the failure message `errMsg`. -/
def Msg.isErrMsg : Msg → Bool
  | .errMsg _ => true
  | _ => false

/-- Type `tea.Cmd`: a deferred task, run in an environment and a world, giving one message
and the world afterwards. -/
abbrev Cmd := Env → World → Msg × World

/-! ## External calls: each records its event and answers from the client or the system -/

/-- Function `pd.NewListIncidentOptsFromDefaults()`. -/
def pd.NewListIncidentOptsFromDefaults (env : Env) : ListIncidentsOptions :=
  env.ListIncidentDefaults

/-- Function `pd.GetIncidents(client, opts)`. -/
def pd.GetIncidents (c : Client) (opts : ListIncidentsOptions) (w : World) :
    (List Incident × error) × World :=
  (c.GetIncidents w opts, w.record (.GetIncidents opts))

/-- Method `client.GetIncidentWithContext(ctx, id)`. -/
def Client.getIncident (c : Client) (id : String) (w : World) :
    (Option Incident × error) × World :=
  (c.GetIncidentWithContext w id, w.record (.GetIncident id))

/-- Function `pd.GetAlerts(client, id, opts)`, always called with the zero options. -/
def pd.GetAlerts (c : Client) (id : String) (w : World) :
    (List IncidentAlert × error) × World :=
  (c.GetAlerts w id, w.record (.GetAlerts id))

/-- Function `pd.GetNotes(client, id)`. -/
def pd.GetNotes (c : Client) (id : String) (w : World) :
    (List IncidentNote × error) × World :=
  (c.GetNotes w id, w.record (.GetNotes id))

/-- Method `client.GetCurrentUserWithContext(ctx, opts)`. -/
def Client.getCurrentUser (c : Client) (w : World) : (Option User × error) × World :=
  (c.GetCurrentUserWithContext w, w.record .GetCurrentUser)

/-- Function `pd.AcknowledgeIncident(client, incidents, user)`: the acknowledge remote
call. -/
def pd.AcknowledgeIncident (c : Client) (incidents : List (Option Incident))
    (user : Option User) (w : World) : (List Incident × error) × World :=
  (c.AcknowledgeIncident w incidents user, w.record (.AcknowledgeIncident incidents user))

/-- Function `pd.ReassignIncidents(client, incidents, user, users)`: the reassign remote
call. -/
def pd.ReassignIncidents (c : Client) (incidents : List (Option Incident))
    (user : Option User) (users : List (Option User)) (w : World) :
    (List Incident × error) × World :=
  (c.ReassignIncidents w incidents user users,
    w.record (.ReassignIncidents incidents user users))

/-- Function `pd.PostNote(client, id, user, content)`: the post-note remote call. -/
def pd.PostNote (c : Client) (id : String) (user : Option User) (content : GoString)
    (w : World) : (Option IncidentNote × error) × World :=
  (c.PostNote w id user content, w.record (.PostNote id user content))

/-- Function `os.TempDir()`. -/
def os.TempDir (env : Env) : String := env.TempDir

/-- Function `os.CreateTemp(dir, pattern)`: on success the new, empty file exists. -/
def os.CreateTemp (env : Env) (dir pattern : String) (w : World) :
    Except GoError File × World :=
  match env.CreateTemp w dir pattern with
  | .error e => (.error e, w.record (.CreateTemp dir pattern))
  | .ok f =>
    (.ok f, { fs := (f.name, []) :: w.fs, trace := w.trace ++ [.CreateTemp dir pattern] })

/-- Function `os.ReadFile(name)`: on success, all the bytes of the named file. -/
def os.ReadFile (env : Env) (name : String) (w : World) : (List UInt8 × error) × World :=
  match w.fs.lookup name with
  | none => (([], some (env.NotExist name)), w.record (.ReadFile name))
  | some b =>
    match env.ReadFault w name with
    | some e => (([], some e), w.record (.ReadFile name))
    | none => ((b, none), w.record (.ReadFile name))

/-- Method `(*os.File).Close`, its error dropped as the caller drops it. -/
def File.Close (f : File) (w : World) : World := w.record (.Close f)

/-- Function `filepath.Base(path)` with the separator `/`: the last element of the path,
trailing separators dropped. -/
def filepath.Base (path : String) : String :=
  if path = "" then "."
  else
    let stripped := path.toList.reverse.dropWhile (fun ch => ch == '/')
    let last := (stripped.takeWhile (fun ch => ch != '/')).reverse
    if last = [] then "/" else String.mk last

/-- Function `exec.Command(name, arg...)`: a name without a separator is looked up through
`exec.LookPath` when the command is built; a path found replaces `Path`, and an error of the
lookup is kept in `Err`. -/
def exec.Command (env : Env) (w : World) (name : String) (arg : List String) : ExecCmd :=
  let cmd : ExecCmd := { Path := name, Args := name :: arg, Err := none }
  if filepath.Base name == name then
    let lp := env.LookPath w name
    let cmd1 : ExecCmd := if lp.1 != "" then { cmd with Path := lp.1 } else cmd
    match lp.2 with
    | some err => { cmd1 with Err := some err }
    | none => cmd1
  else cmd

/-- Method `(*exec.Cmd).Run`: a command with a lookup error, or one that cannot be started,
gives that error and no process; a started process is recorded and runs until it exits. -/
def ExecCmd.Run (c : ExecCmd) (env : Env) (w : World) : error × World :=
  match c.Err with
  | some err => (some err, w)
  | none =>
    match env.Start w c with
    | some err => (some err, w)
    | none => ((env.Wait w c).1, { fs := (env.Wait w c).2, trace := w.trace ++ [.Spawn c] })

/-- Function `tea.ExecProcess(c, fn)` of bubbletea: the task that gives the message `execMsg`
with `c` and `fn`; it starts nothing by itself. -/
def tea.ExecProcess (c : ExecCmd) (fn : error → Msg) : Cmd := fun _ w =>
  (.execMsg c fn, w)

/-- Method `(*tea.Program).exec(c, fn)` of bubbletea, by which the program handles an
`execMsg`: it releases the terminal, runs `c`, restores the terminal and sends the message
`fn` makes of the error; when the terminal cannot be released `c` is not run. -/
def tea.Program.exec (c : ExecCmd) (fn : error → Msg) (env : Env) (w : World) :
    Msg × World :=
  match env.ReleaseTerminal w with
  | some err => (fn (some err), w)
  | none =>
    match c.Run env w with
    | (some err, w1) => (fn (some err), w1)
    | (none, w1) => (fn (env.RestoreTerminal w1), w1)

/-- The process of `c` gets started when the program handles its `execMsg`: the terminal is
released, the lookup left no error and the start succeeds. -/
def tea.Program.starts (c : ExecCmd) (env : Env) (w : World) : Bool :=
  (env.ReleaseTerminal w).isNone && c.Err.isNone && (env.Start w c).isNone

/-! ## The command constructors -/

/-- Function `updateIncidentList(p)`. -/
def updateIncidentList (p : pd.Config) : Cmd := fun env w =>
  let teams := p.Teams.foldl (fun acc t => acc ++ [t.ID]) []
  let opts := { pd.NewListIncidentOptsFromDefaults env with TeamIDs := teams }
  let r := pd.GetIncidents p.Client opts w
  (.updatedIncidentListMsg r.1.1 r.1.2, r.2)

/-- Function `getIncident(p, id)`. -/
def getIncident (p : pd.Config) (id : String) : Cmd := fun _ w =>
  let r := p.Client.getIncident id w
  (.gotIncidentMsg r.1.1 r.1.2, r.2)

/-- Function `getIncidentAlerts(p, id)`. -/
def getIncidentAlerts (p : pd.Config) (id : String) : Cmd := fun _ w =>
  let r := pd.GetAlerts p.Client id w
  (.gotIncidentAlertsMsg r.1.1 r.1.2, r.2)

/-- Function `getIncidentNotes(p, id)`. -/
def getIncidentNotes (p : pd.Config) (id : String) : Cmd := fun _ w =>
  let r := pd.GetNotes p.Client id w
  (.gotIncidentNotesMsg r.1.1 r.1.2, r.2)

/-- Function `getCurrentUser(p)`. -/
def getCurrentUser (p : pd.Config) : Cmd := fun _ w =>
  let r := p.Client.getCurrentUser w
  (.gotCurrentUserMsg r.1.1 r.1.2, r.2)

/-- Function `openEditorCmd(editor)`: the temporary file is created when the command is
built, so building it threads the world. -/
def openEditorCmd (editor : String) (env : Env) (w : World) : Cmd × World :=
  match os.CreateTemp env (os.TempDir env) "" w with
  | (.error err, w1) => (fun _ w2 => (.errMsg (some err), w2), w1)
  | (.ok file, w1) =>
    let c := exec.Command env w1 editor [file.Name]
    (tea.ExecProcess c (fun err => .editorFinishedMsg err file), w1)

/-- The command `exec.Command(editor, file.Name())` that `openEditorCmd` builds once the
temporary file `file` is created. -/
def openEditorCmd.command (editor : String) (env : Env) (w : World) (file : File) : ExecCmd :=
  exec.Command env (os.CreateTemp env (os.TempDir env) "" w).2 editor [file.Name]

/-- Function `acknowledgeIncidents(p, incidents)`. -/
def acknowledgeIncidents (p : pd.Config) (incidents : List (Option Incident)) : Cmd :=
  fun _ w =>
  match p.Client.getCurrentUser w with
  | ((_, some err), w1) => (.errMsg (some err), w1)
  | ((u, none), w1) =>
    match pd.AcknowledgeIncident p.Client incidents u w1 with
    | ((_, some err), w2) => (.errMsg (some err), w2)
    | ((a, none), w2) => (.acknowledgedIncidentsMsg a none, w2)

/-- Function `reassignIncidents(p, i, user, users)`. -/
def reassignIncidents (p : pd.Config) (i : List (Option Incident)) (user : Option User)
    (users : List (Option User)) : Cmd := fun _ w =>
  match pd.ReassignIncidents p.Client i user users w with
  | ((_, some err), w1) => (.errMsg (some err), w1)
  | ((r, none), w1) => (.reassignedIncidentsMsg r, w1)

/-- Variable `errSilenceIncidentInvalidArgs`. -/
def errSilenceIncidentInvalidArgs : GoError :=
  { text := "silenceIncidents: invalid arguments" }

/-- Function `silenceIncidents(i, u)`. -/
def silenceIncidents (i : List (Option Incident)) (u : List (Option User)) : Cmd :=
  fun _ w =>
  if i.length == 0 || u.length == 0 then
    (.errMsg (some errSilenceIncidentInvalidArgs), w)
  else
    (.reassignIncidentsMsg i u, w)

/-- Function `addNoteToIncident(p, incident, user, content)`; the deferred `Close` runs
last on every path. -/
def addNoteToIncident (p : pd.Config) (incident : Incident) (user : Option User)
    (content : File) : Cmd := fun env w =>
  match os.ReadFile env content.Name w with
  | ((_, some err), w1) => (.errMsg (some err), content.Close w1)
  | ((bytes, none), w1) =>
    let text := string (slice bytes 0 bytes.length)
    let r := pd.PostNote p.Client incident.ID user text w1
    (.addedIncidentNoteMsg r.1.1 r.1.2, content.Close r.2)

/-- A call to one of the command constructors of this file, with its arguments. -/
inductive Constructor where
  | updateIncidentList (p : pd.Config)
  | getIncident (p : pd.Config) (id : String)
  | getIncidentAlerts (p : pd.Config) (id : String)
  | getIncidentNotes (p : pd.Config) (id : String)
  | getCurrentUser (p : pd.Config)
  | acknowledgeIncidents (p : pd.Config) (incidents : List (Option Incident))
  | reassignIncidents (p : pd.Config) (i : List (Option Incident)) (user : Option User)
      (users : List (Option User))
  | silenceIncidents (i : List (Option Incident)) (u : List (Option User))
  | addNoteToIncident (p : pd.Config) (incident : Incident) (user : Option User)
      (content : File)
  | openEditorCmd (editor : String)

/-- The constructor is `openEditorCmd`. -/
def Constructor.isOpenEditorCmd : Constructor → Bool
  | .openEditorCmd _ => true
  | _ => false

/-- Building a command without running it: the command, and the world afterwards.  All
constructors but `openEditorCmd` only return a closure. -/
def Constructor.build : Constructor → Env → World → Cmd × World
  | .updateIncidentList p, _, w => (Srepd.updateIncidentList p, w)
  | .getIncident p id, _, w => (Srepd.getIncident p id, w)
  | .getIncidentAlerts p id, _, w => (Srepd.getIncidentAlerts p id, w)
  | .getIncidentNotes p id, _, w => (Srepd.getIncidentNotes p id, w)
  | .getCurrentUser p, _, w => (Srepd.getCurrentUser p, w)
  | .acknowledgeIncidents p incidents, _, w => (Srepd.acknowledgeIncidents p incidents, w)
  | .reassignIncidents p i user users, _, w => (Srepd.reassignIncidents p i user users, w)
  | .silenceIncidents i u, _, w => (Srepd.silenceIncidents i u, w)
  | .addNoteToIncident p incident user content, _, w =>
    (Srepd.addNoteToIncident p incident user content, w)
  | .openEditorCmd editor, env, w => Srepd.openEditorCmd editor env w

/-- The effects recorded between the world `w` and the later world `w2`. -/
def newEvents (w w2 : World) : List Event := w2.trace.drop w.trace.length

/-! ## Sample values -/

/-- A sample incident, assigned to one responder. -/
def sampleIncident : Incident :=
  { ID := "Q1", Title := "disk full", Status := "triggered",
    Assignments := [{ At := "09:00", Assignee := { ID := "PU1", Summary := "Ada", HTMLURL := "" } }] }

/-- A sample user. -/
def sampleUser : User := { ID := "PU1", Name := "Ada", Email := "ada@example.org" }

/-- A second sample user. -/
def otherUser : User := { ID := "PU2", Name := "Bob", Email := "bob@example.org" }

/-- A sample temporary file handle. -/
def sampleFile : File := { name := "/tmp/note1", fd := 3 }

/-- A sample note text. -/
def sampleText : GoString := GoString.lit "investigating root cause"

/-- A sample error of the remote service. -/
def remoteDown : GoError := { text := "remote service unavailable" }

/-- A sample error of the file system. -/
def diskFull : GoError := { text := "no space left on device" }

/-- A world with no file and no effect yet. -/
def emptyWorld : World := { fs := [], trace := [] }

/-- A world in which the sample file holds the sample text. -/
def noteWorld : World := { fs := [(sampleFile.name, sampleText)], trace := [] }

/-- A remote service that answers every call successfully. -/
def goodClient : Client :=
  { GetIncidentWithContext := fun _ _ => (some sampleIncident, none)
    GetCurrentUserWithContext := fun _ => (some sampleUser, none)
    GetIncidents := fun _ _ => ([sampleIncident], none)
    GetAlerts := fun _ _ => ([], none)
    GetNotes := fun _ _ => ([], none)
    AcknowledgeIncident := fun _ is _ => (is.filterMap id, none)
    ReassignIncidents := fun _ is _ _ => (is.filterMap id, none)
    PostNote := fun _ _ u c => (some { ID := "N1", User := u, Content := c }, none) }

/-- A remote service that fails every call. -/
def downClient : Client :=
  { GetIncidentWithContext := fun _ _ => (none, some remoteDown)
    GetCurrentUserWithContext := fun _ => (none, some remoteDown)
    GetIncidents := fun _ _ => ([], some remoteDown)
    GetAlerts := fun _ _ => ([], some remoteDown)
    GetNotes := fun _ _ => ([], some remoteDown)
    AcknowledgeIncident := fun _ _ _ => ([], some remoteDown)
    ReassignIncidents := fun _ _ _ _ => ([], some remoteDown)
    PostNote := fun _ _ _ _ => (none, some remoteDown) }

/-- A remote service that knows the current user but fails to acknowledge. -/
def halfClient : Client :=
  { downClient with GetCurrentUserWithContext := fun _ => (some sampleUser, none) }

/-- A configuration with the good service. -/
def goodConfig : pd.Config := { Client := goodClient, Teams := [{ ID := "T1", Name := "sre" }] }

/-- A configuration with the failing service. -/
def downConfig : pd.Config := { Client := downClient, Teams := [] }

/-- A configuration with the half-failing service. -/
def halfConfig : pd.Config := { Client := halfClient, Teams := [] }

/-- An operating system on which everything succeeds; the editor exits cleanly and leaves
the files as they are. -/
def goodEnv : Env :=
  { TempDir := "/tmp"
    CreateTemp := fun _ _ _ => .ok sampleFile
    NotExist := fun _ => { text := "no such file or directory" }
    ReadFault := fun _ _ => none
    LookPath := fun _ name => ("/usr/bin/" ++ name, none)
    Start := fun _ _ => none
    Wait := fun w _ => (none, w.fs)
    ReleaseTerminal := fun _ => none
    RestoreTerminal := fun _ => none
    ListIncidentDefaults := { Limit := 100, Statuses := ["triggered"], TeamIDs := [], UserIDs := [] } }

/-- An operating system on which no temporary file can be created and no file read. -/
def fullEnv : Env :=
  { goodEnv with
    CreateTemp := fun _ _ _ => .error diskFull
    ReadFault := fun _ _ => some diskFull }

/-- The error of looking up a program that is not installed. -/
def notFound : GoError := { text := "executable file not found in $PATH" }

/-- A sample exit error of a process. -/
def exitOne : GoError := { text := "exit status 1" }

/-- An operating system on which temporary files can be created but no program is found
through the lookup. -/
def bareEnv : Env :=
  { goodEnv with LookPath := fun _ _ => ("", some notFound) }

/-- An operating system on which every process exits with an error. -/
def crashEnv : Env :=
  { goodEnv with Wait := fun w _ => (some exitOne, w.fs) }

/-! ## Lemmas on the selection predicates -/

theorem AssignedToUser.loop_iff (id : String) (as : List Assignment) :
    AssignedToUser.loop id as = true ↔ ∃ a ∈ as, a.Assignee.ID = id := by
  induction as with
  | nil => simp [AssignedToUser.loop]
  | cons a rest ih =>
    by_cases h : a.Assignee.ID = id
    · simp [AssignedToUser.loop, h]
    · simp [AssignedToUser.loop, h, ih]

theorem AssignedToAnyUsers.inner_iff (a : Assignment) (ids : List String) :
    AssignedToAnyUsers.inner a ids = true ↔ a.Assignee.ID ∈ ids := by
  induction ids with
  | nil => simp [AssignedToAnyUsers.inner]
  | cons id rest ih =>
    by_cases h : a.Assignee.ID = id
    · simp [AssignedToAnyUsers.inner, h]
    · simp [AssignedToAnyUsers.inner, h, ih]

theorem AssignedToAnyUsers.outer_iff (ids : List String) (as : List Assignment) :
    AssignedToAnyUsers.outer ids as = true ↔ ∃ a ∈ as, a.Assignee.ID ∈ ids := by
  induction as with
  | nil => simp [AssignedToAnyUsers.outer]
  | cons a rest ih =>
    by_cases h : a.Assignee.ID ∈ ids
    · simp [AssignedToAnyUsers.outer, AssignedToAnyUsers.inner_iff, h]
    · simp [AssignedToAnyUsers.outer, AssignedToAnyUsers.inner_iff, h, ih]

/-- C3: `AssignedToUser(incident, id)` is true exactly when some assignment of the incident
has an assignee whose ID is `id`; with no assignments it is false for every id. -/
theorem AssignedToUser_iff_exists_assignee (i : Incident) (id : String) :
    (AssignedToUser i id = true ↔ ∃ a ∈ i.Assignments, a.Assignee.ID = id) ∧
    AssignedToUser { i with Assignments := [] } id = false :=
  ⟨AssignedToUser.loop_iff id i.Assignments, rfl⟩

/-- C4: `AssignedToAnyUsers(incident, ids)` is the logical OR of `AssignedToUser(incident, id)`
over the ids, and it is false when `ids` is empty. -/
theorem AssignedToAnyUsers_eq_any (i : Incident) (ids : List String) :
    AssignedToAnyUsers i ids = ids.any (fun id => AssignedToUser i id) ∧
    AssignedToAnyUsers i [] = false := by
  constructor
  · rw [Bool.eq_iff_iff]
    simp only [AssignedToAnyUsers, AssignedToUser, AssignedToAnyUsers.outer_iff,
      List.any_eq_true, AssignedToUser.loop_iff]
    constructor
    · rintro ⟨a, ha, hid⟩
      exact ⟨a.Assignee.ID, hid, a, ha, rfl⟩
    · rintro ⟨id, hid, a, ha, h⟩
      exact ⟨a, ha, h ▸ hid⟩
  · have h : ∀ as : List Assignment, AssignedToAnyUsers.outer [] as = false := by
      intro as
      induction as with
      | nil => rfl
      | cons a rest ih => simp [AssignedToAnyUsers.outer, AssignedToAnyUsers.inner, ih]
    exact h i.Assignments

/-! ## Silence -/

/-- C1: for non-empty lists `I` and `U`, running `silenceIncidents(I, U)` gives the message
`reassignIncidentsMsg` with exactly `I` and `U`, whatever the environment and the world,
and records no effect. -/
theorem silenceIncidents_nonempty (I : List (Option Incident)) (U : List (Option User))
    (hI : I ≠ []) (hU : U ≠ []) (env : Env) (w : World) :
    silenceIncidents I U env w = (.reassignIncidentsMsg I U, w) := by
  cases I with
  | nil => exact absurd rfl hI
  | cons a I =>
    cases U with
    | nil => exact absurd rfl hU
    | cons b U => simp [silenceIncidents]

theorem silenceIncidents_nonempty_witness :
    [some sampleIncident] ≠ [] ∧ [some sampleUser, some otherUser] ≠ [] ∧
    silenceIncidents [some sampleIncident] [some sampleUser, some otherUser] fullEnv noteWorld =
      (.reassignIncidentsMsg [some sampleIncident] [some sampleUser, some otherUser],
        noteWorld) :=
  ⟨by simp, by simp,
    silenceIncidents_nonempty [some sampleIncident] [some sampleUser, some otherUser]
      (by simp) (by simp) fullEnv noteWorld⟩

/-- C2: running `silenceIncidents(I, U)` gives `errMsg` with the fixed error
`errSilenceIncidentInvalidArgs` exactly when `I` or `U` is empty; it gives no other
`errMsg`, the text of the error is "silenceIncidents: invalid arguments", and no effect is
recorded. -/
theorem silenceIncidents_invalid_iff (I : List (Option Incident)) (U : List (Option User))
    (env : Env) (w : World) :
    ((silenceIncidents I U env w).1 = .errMsg (some errSilenceIncidentInvalidArgs) ↔
      (I = [] ∨ U = [])) ∧
    ((silenceIncidents I U env w).1.isErrMsg = true ↔ (I = [] ∨ U = [])) ∧
    errSilenceIncidentInvalidArgs.text = "silenceIncidents: invalid arguments" ∧
    (silenceIncidents I U env w).2 = w := by
  refine ⟨?_, ?_, rfl, ?_⟩
  · cases I <;> cases U <;> simp [silenceIncidents]
  · cases I <;> cases U <;> simp [silenceIncidents, Msg.isErrMsg]
  · cases I <;> cases U <;> simp [silenceIncidents]

/-! ## Acknowledge and reassign -/

/-- C7: running `acknowledgeIncidents(p, incidents)` first asks for the current user.  If
that fails with `e`, the result is `errMsg` with `e` and the acknowledge call is not made.
If it gives the user `u`, the acknowledge call is made once, with the given incidents and
`u`; its error, if any, comes back in `errMsg`, and otherwise the result is
`acknowledgedIncidentsMsg` with the list it returned and a nil error.  The incident list
may be empty. -/
theorem acknowledgeIncidents_resolves_user_then_acknowledges (p : pd.Config)
    (incidents : List (Option Incident)) (env : Env) (w : World) :
    (∀ u e, p.Client.GetCurrentUserWithContext w = (u, some e) →
      acknowledgeIncidents p incidents env w = (.errMsg (some e), w.record .GetCurrentUser) ∧
      (newEvents w (acknowledgeIncidents p incidents env w).2).countP Event.isAcknowledge
        = 0) ∧
    (∀ u, p.Client.GetCurrentUserWithContext w = (u, none) →
      (acknowledgeIncidents p incidents env w).2.trace =
        w.trace ++ [.GetCurrentUser, .AcknowledgeIncident incidents u] ∧
      (newEvents w (acknowledgeIncidents p incidents env w).2).countP Event.isAcknowledge
        = 1 ∧
      (∀ a e, p.Client.AcknowledgeIncident (w.record .GetCurrentUser) incidents u
          = (a, some e) →
        (acknowledgeIncidents p incidents env w).1 = .errMsg (some e)) ∧
      (∀ a, p.Client.AcknowledgeIncident (w.record .GetCurrentUser) incidents u
          = (a, none) →
        (acknowledgeIncidents p incidents env w).1 = .acknowledgedIncidentsMsg a none)) := by
  refine ⟨?_, ?_⟩
  · intro u e h
    simp [acknowledgeIncidents, Client.getCurrentUser, h, newEvents, World.record,
      Event.isAcknowledge]
  · intro u h
    rcases hack : p.Client.AcknowledgeIncident (w.record .GetCurrentUser) incidents u
      with ⟨a, _ | e⟩ <;>
    simp only [acknowledgeIncidents, Client.getCurrentUser, pd.AcknowledgeIncident, h,
      hack] <;>
    simp [newEvents, World.record, Event.isAcknowledge]

theorem acknowledgeIncidents_resolves_user_then_acknowledges_witness :
    acknowledgeIncidents downConfig [some sampleIncident] goodEnv emptyWorld =
      (.errMsg (some remoteDown), emptyWorld.record .GetCurrentUser) ∧
    (acknowledgeIncidents goodConfig [some sampleIncident] goodEnv emptyWorld).1 =
      .acknowledgedIncidentsMsg [sampleIncident] none ∧
    (acknowledgeIncidents halfConfig [] goodEnv emptyWorld).1 = .errMsg (some remoteDown) ∧
    (acknowledgeIncidents goodConfig [] goodEnv emptyWorld).2.trace =
      emptyWorld.trace ++ [.GetCurrentUser, .AcknowledgeIncident [] (some sampleUser)] :=
  ⟨((acknowledgeIncidents_resolves_user_then_acknowledges downConfig [some sampleIncident]
      goodEnv emptyWorld).1 none remoteDown rfl).1,
    ((acknowledgeIncidents_resolves_user_then_acknowledges goodConfig [some sampleIncident]
      goodEnv emptyWorld).2 (some sampleUser) rfl).2.2.2 [sampleIncident] rfl,
    ((acknowledgeIncidents_resolves_user_then_acknowledges halfConfig []
      goodEnv emptyWorld).2 (some sampleUser) rfl).2.2.1 [] remoteDown rfl,
    ((acknowledgeIncidents_resolves_user_then_acknowledges goodConfig []
      goodEnv emptyWorld).2 (some sampleUser) rfl).1⟩

/-- C8: running `reassignIncidents(p, i, user, users)` makes one remote call, the reassign
call, with `i`, `user` and `users` as given; when the call returns the list `r` and no
error the result is `reassignedIncidentsMsg` with `r` as returned, and when it fails with
`e` the result is `errMsg` with `e`. -/
theorem reassignIncidents_single_call_pass_through (p : pd.Config)
    (i : List (Option Incident)) (user : Option User) (users : List (Option User))
    (env : Env) (w : World) :
    (reassignIncidents p i user users env w).2 =
      w.record (.ReassignIncidents i user users) ∧
    newEvents w (reassignIncidents p i user users env w).2 =
      [.ReassignIncidents i user users] ∧
    (∀ r, p.Client.ReassignIncidents w i user users = (r, none) →
      (reassignIncidents p i user users env w).1 = .reassignedIncidentsMsg r) ∧
    (∀ r e, p.Client.ReassignIncidents w i user users = (r, some e) →
      (reassignIncidents p i user users env w).1 = .errMsg (some e)) := by
  rcases h : p.Client.ReassignIncidents w i user users with ⟨r, _ | e⟩ <;>
  simp [reassignIncidents, pd.ReassignIncidents, h, newEvents, World.record]

theorem reassignIncidents_single_call_pass_through_witness :
    (reassignIncidents goodConfig [some sampleIncident] (some sampleUser)
        [some sampleUser, some otherUser] goodEnv emptyWorld).1 =
      .reassignedIncidentsMsg [sampleIncident] ∧
    (reassignIncidents downConfig [some sampleIncident] (some sampleUser)
        [some sampleUser, some otherUser] goodEnv emptyWorld).1 =
      .errMsg (some remoteDown) :=
  ⟨(reassignIncidents_single_call_pass_through goodConfig [some sampleIncident]
      (some sampleUser) [some sampleUser, some otherUser] goodEnv emptyWorld).2.2.1
      [sampleIncident] rfl,
    (reassignIncidents_single_call_pass_through downConfig [some sampleIncident]
      (some sampleUser) [some sampleUser, some otherUser] goodEnv emptyWorld).2.2.2
      [] remoteDown rfl⟩

/-! ## Add note -/

theorem slice_full (b : List UInt8) : slice b 0 b.length = b := by
  simp [slice]

theorem os.ReadFile_world (env : Env) (name : String) (w : World) :
    (os.ReadFile env name w).2 = w.record (.ReadFile name) := by
  unfold os.ReadFile
  split
  · rfl
  · split <;> rfl

/-- C6: when the file given to `addNoteToIncident` holds exactly the bytes `B` and reading
it succeeds, running the task makes the post-note call once, with the ID of the given
incident, the given user and the content `string(B)`, which has exactly the bytes of `B`;
the message carries what that call returned. -/
theorem addNoteToIncident_posts_file_content (p : pd.Config) (incident : Incident)
    (user : Option User) (content : File) (env : Env) (w : World) (B : List UInt8)
    (hfile : w.fs.lookup content.Name = some B)
    (hread : env.ReadFault w content.Name = none) :
    (addNoteToIncident p incident user content env w).2.trace =
      w.trace ++ [.ReadFile content.Name, .PostNote incident.ID user (string B),
        .Close content] ∧
    (newEvents w (addNoteToIncident p incident user content env w).2).countP
      Event.isPostNote = 1 ∧
    string B = B ∧
    (addNoteToIncident p incident user content env w).1 =
      .addedIncidentNoteMsg
        (p.Client.PostNote (w.record (.ReadFile content.Name)) incident.ID user (string B)).1
        (p.Client.PostNote (w.record (.ReadFile content.Name)) incident.ID user
          (string B)).2 := by
  simp [addNoteToIncident, os.ReadFile, hfile, hread, slice_full, pd.PostNote, File.Close,
    World.record, newEvents, Event.isPostNote, string]

theorem addNoteToIncident_posts_file_content_witness :
    noteWorld.fs.lookup sampleFile.Name = some (GoString.lit "investigating root cause") ∧
    goodEnv.ReadFault noteWorld sampleFile.Name = none ∧
    (addNoteToIncident goodConfig sampleIncident (some sampleUser) sampleFile goodEnv
        noteWorld).2.trace =
      noteWorld.trace ++ [.ReadFile sampleFile.Name,
        .PostNote sampleIncident.ID (some sampleUser)
          (string (GoString.lit "investigating root cause")),
        .Close sampleFile] ∧
    string (GoString.lit "investigating root cause") =
      GoString.lit "investigating root cause" :=
  ⟨rfl, rfl,
    (addNoteToIncident_posts_file_content goodConfig sampleIncident (some sampleUser)
      sampleFile goodEnv noteWorld (GoString.lit "investigating root cause") rfl rfl).1,
    (addNoteToIncident_posts_file_content goodConfig sampleIncident (some sampleUser)
      sampleFile goodEnv noteWorld (GoString.lit "investigating root cause") rfl rfl).2.2.1⟩

/-- C9, as stated, fails: the file is read, the post-note call fails with `remoteDown`, and
the result is `addedIncidentNoteMsg` carrying that error, not `errMsg`. -/
theorem addNoteToIncident_post_failure_not_errMsg :
    (os.ReadFile goodEnv sampleFile.Name noteWorld).1 = (sampleText, none) ∧
    downConfig.Client.PostNote (noteWorld.record (.ReadFile sampleFile.Name))
      sampleIncident.ID (some sampleUser) sampleText = (none, some remoteDown) ∧
    (addNoteToIncident downConfig sampleIncident (some sampleUser) sampleFile goodEnv
      noteWorld).1 = .addedIncidentNoteMsg none (some remoteDown) ∧
    (addNoteToIncident downConfig sampleIncident (some sampleUser) sampleFile goodEnv
      noteWorld).1 ≠ .errMsg (some remoteDown) ∧
    (addNoteToIncident downConfig sampleIncident (some sampleUser) sampleFile goodEnv
      noteWorld).1.isErrMsg = false := by
  refine ⟨rfl, rfl, rfl, ?_, rfl⟩
  intro h
  cases h

/-- C9, amended: when reading the file fails with `e`, the result of `addNoteToIncident` is
`errMsg` with `e` and no note is posted; when the read succeeds with the bytes `b`, the
result is `addedIncidentNoteMsg` with the note and the error (nil or not) that the
post-note call returned, so a failure of the post comes back in the `err` field of that
message; the result is `errMsg` exactly when the read failed. -/
theorem addNoteToIncident_failure_messages (p : pd.Config) (incident : Incident)
    (user : Option User) (content : File) (env : Env) (w : World) :
    (∀ b e, (os.ReadFile env content.Name w).1 = (b, some e) →
      (addNoteToIncident p incident user content env w).1 = .errMsg (some e) ∧
      (newEvents w (addNoteToIncident p incident user content env w).2).countP
        Event.isPostNote = 0) ∧
    (∀ b, (os.ReadFile env content.Name w).1 = (b, none) →
      (addNoteToIncident p incident user content env w).1 =
        .addedIncidentNoteMsg
          (p.Client.PostNote (w.record (.ReadFile content.Name)) incident.ID user b).1
          (p.Client.PostNote (w.record (.ReadFile content.Name)) incident.ID user b).2) ∧
    ((addNoteToIncident p incident user content env w).1.isErrMsg = true ↔
      (os.ReadFile env content.Name w).1.2 ≠ none) := by
  have hw := os.ReadFile_world env content.Name w
  rcases hr : os.ReadFile env content.Name w with ⟨⟨b, _ | e⟩, w1⟩ <;>
  rw [hr] at hw <;> subst hw <;>
  simp [addNoteToIncident, hr, slice_full, string, pd.PostNote, File.Close, World.record,
    newEvents, Event.isPostNote, Msg.isErrMsg]

theorem addNoteToIncident_failure_messages_witness :
    (addNoteToIncident goodConfig sampleIncident (some sampleUser) sampleFile fullEnv
      noteWorld).1 = .errMsg (some diskFull) ∧
    (addNoteToIncident downConfig sampleIncident (some sampleUser) sampleFile goodEnv
      noteWorld).1 = .addedIncidentNoteMsg none (some remoteDown) :=
  ⟨((addNoteToIncident_failure_messages goodConfig sampleIncident (some sampleUser)
      sampleFile fullEnv noteWorld).1 [] diskFull rfl).1,
    (addNoteToIncident_failure_messages downConfig sampleIncident (some sampleUser)
      sampleFile goodEnv noteWorld).2.1 sampleText rfl⟩

/-! ## The editor -/

theorem exec.Command_Args (env : Env) (w : World) (name : String) (arg : List String) :
    (exec.Command env w name arg).Args = name :: arg := by
  unfold exec.Command
  simp only []
  split
  · split <;> split <;> rfl
  · rfl

theorem tea.Program.exec_not_started (c : ExecCmd) (fn : error → Msg) (env : Env) (w : World)
    (h : tea.Program.starts c env w = false) :
    (tea.Program.exec c fn env w).2 = w ∧ ∃ e, (tea.Program.exec c fn env w).1 = fn (some e) := by
  unfold tea.Program.starts at h
  unfold tea.Program.exec ExecCmd.Run
  rcases hr : env.ReleaseTerminal w with _ | e
  · rcases hc : c.Err with _ | e
    · rcases hs : env.Start w c with _ | e
      · simp [hr, hc, hs] at h
      · exact ⟨rfl, e, rfl⟩
    · exact ⟨rfl, e, rfl⟩
  · exact ⟨rfl, e, rfl⟩

theorem tea.Program.exec_started (c : ExecCmd) (fn : error → Msg) (env : Env) (w : World)
    (h : tea.Program.starts c env w = true) :
    (tea.Program.exec c fn env w).2 =
      { fs := (env.Wait w c).2, trace := w.trace ++ [.Spawn c] } ∧
    (∀ e, (env.Wait w c).1 = some e → (tea.Program.exec c fn env w).1 = fn (some e)) ∧
    ((env.Wait w c).1 = none →
      (tea.Program.exec c fn env w).1 =
        fn (env.RestoreTerminal (tea.Program.exec c fn env w).2)) := by
  unfold tea.Program.starts at h
  simp only [Bool.and_eq_true, Option.isNone_iff_eq_none] at h
  obtain ⟨⟨hr, hc⟩, hs⟩ := h
  unfold tea.Program.exec ExecCmd.Run
  rcases hw : (env.Wait w c).1 with _ | e <;> simp [hr, hc, hs, hw]

/-- C10, as stated, fails: the temporary file is created, but the editor is not found when
the command is built, so no process is started when the command is run and the completion
message carries the error of the lookup, no exit error of a process. -/
theorem openEditorCmd_editor_not_started :
    bareEnv.CreateTemp emptyWorld (os.TempDir bareEnv) "" = .ok sampleFile ∧
    (openEditorCmd "nosuch" bareEnv emptyWorld).1 bareEnv noteWorld =
      (.execMsg { Path := "nosuch", Args := ["nosuch", "/tmp/note1"], Err := some notFound }
        (fun err => .editorFinishedMsg err sampleFile), noteWorld) ∧
    tea.Program.exec
        { Path := "nosuch", Args := ["nosuch", "/tmp/note1"], Err := some notFound }
        (fun err => .editorFinishedMsg err sampleFile) bareEnv noteWorld =
      (.editorFinishedMsg (some notFound) sampleFile, noteWorld) ∧
    (tea.Program.exec
        { Path := "nosuch", Args := ["nosuch", "/tmp/note1"], Err := some notFound }
        (fun err => .editorFinishedMsg err sampleFile) bareEnv noteWorld).2.spawnCount = 0 :=
  ⟨rfl, rfl, rfl, rfl⟩

/-- C10, amended: when creating the temporary file fails with `e`, `openEditorCmd` starts
no subprocess and the task it returns, run anywhere, gives `errMsg` with `e` and leaves the
world as it is.  When creation gives `file`, the task starts nothing by itself: it gives the
request to run `exec.Command(editor, file.Name())`, whose arguments are the editor and the
name of `file` alone, with a callback that makes `editorFinishedMsg` of any error and
`file`.  When the program handles the request the completion message is always
`editorFinishedMsg` with `file`; if the editor gets started it is started once, with that
command, and the message carries the exit error of the process, or the error of restoring
the terminal when the process exits without error; if it does not get started no process
is recorded, the world is left as it is and the message carries the error that prevented
the start. -/
theorem openEditorCmd_temp_file_then_editor (editor : String) (env : Env) (w : World)
    (env2 : Env) (w2 : World) :
    (∀ e, env.CreateTemp w (os.TempDir env) "" = .error e →
      (openEditorCmd editor env w).2.spawnCount = w.spawnCount ∧
      (openEditorCmd editor env w).1 env2 w2 = (.errMsg (some e), w2)) ∧
    (∀ file, env.CreateTemp w (os.TempDir env) "" = .ok file →
      (openEditorCmd editor env w).2.spawnCount = w.spawnCount ∧
      (openEditorCmd.command editor env w file).Args = [editor, file.Name] ∧
      (openEditorCmd editor env w).1 env2 w2 =
        (.execMsg (openEditorCmd.command editor env w file)
          (fun err => .editorFinishedMsg err file), w2) ∧
      (∃ err, (tea.Program.exec (openEditorCmd.command editor env w file)
          (fun err => .editorFinishedMsg err file) env2 w2).1 =
        .editorFinishedMsg err file) ∧
      (tea.Program.starts (openEditorCmd.command editor env w file) env2 w2 = true →
        newEvents w2 (tea.Program.exec (openEditorCmd.command editor env w file)
            (fun err => .editorFinishedMsg err file) env2 w2).2 =
          [.Spawn (openEditorCmd.command editor env w file)] ∧
        (∀ e, (env2.Wait w2 (openEditorCmd.command editor env w file)).1 = some e →
          (tea.Program.exec (openEditorCmd.command editor env w file)
            (fun err => .editorFinishedMsg err file) env2 w2).1 =
          .editorFinishedMsg (some e) file) ∧
        ((env2.Wait w2 (openEditorCmd.command editor env w file)).1 = none →
          (tea.Program.exec (openEditorCmd.command editor env w file)
            (fun err => .editorFinishedMsg err file) env2 w2).1 =
          .editorFinishedMsg
            (env2.RestoreTerminal (tea.Program.exec (openEditorCmd.command editor env w file)
              (fun err => .editorFinishedMsg err file) env2 w2).2) file)) ∧
      (tea.Program.starts (openEditorCmd.command editor env w file) env2 w2 = false →
        (tea.Program.exec (openEditorCmd.command editor env w file)
          (fun err => .editorFinishedMsg err file) env2 w2).2 = w2 ∧
        ∃ e, (tea.Program.exec (openEditorCmd.command editor env w file)
            (fun err => .editorFinishedMsg err file) env2 w2).1 =
          .editorFinishedMsg (some e) file)) := by
  refine ⟨?_, ?_⟩
  · intro e h
    simp [openEditorCmd, os.CreateTemp, h, World.spawnCount, World.record, Event.isSpawn]
  · intro file h
    refine ⟨?_, ?_, ?_, ?_, ?_, ?_⟩
    · simp [openEditorCmd, os.CreateTemp, h, World.spawnCount, Event.isSpawn]
    · exact exec.Command_Args _ _ _ _
    · simp [openEditorCmd, openEditorCmd.command, os.CreateTemp, h, tea.ExecProcess]
    · cases hs : tea.Program.starts (openEditorCmd.command editor env w file) env2 w2
      · obtain ⟨_, e, he⟩ := tea.Program.exec_not_started _
          (fun err => Msg.editorFinishedMsg err file) env2 w2 hs
        exact ⟨some e, he⟩
      · obtain ⟨_, h1, h2⟩ := tea.Program.exec_started _
          (fun err => Msg.editorFinishedMsg err file) env2 w2 hs
        rcases hw : (env2.Wait w2 (openEditorCmd.command editor env w file)).1 with _ | e
        · exact ⟨_, h2 hw⟩
        · exact ⟨_, h1 e hw⟩
    · intro hs
      obtain ⟨h0, h1, h2⟩ := tea.Program.exec_started _
        (fun err => Msg.editorFinishedMsg err file) env2 w2 hs
      refine ⟨?_, h1, h2⟩
      rw [h0]
      simp [newEvents]
    · intro hs
      exact tea.Program.exec_not_started _ (fun err => Msg.editorFinishedMsg err file)
        env2 w2 hs

theorem openEditorCmd_temp_file_then_editor_witness :
    (openEditorCmd "vi" fullEnv emptyWorld).1 goodEnv noteWorld =
      (.errMsg (some diskFull), noteWorld) ∧
    (openEditorCmd.command "vi" goodEnv emptyWorld sampleFile).Args = ["vi", "/tmp/note1"] ∧
    newEvents noteWorld (tea.Program.exec (openEditorCmd.command "vi" goodEnv emptyWorld
        sampleFile) (fun err => .editorFinishedMsg err sampleFile) crashEnv noteWorld).2 =
      [.Spawn (openEditorCmd.command "vi" goodEnv emptyWorld sampleFile)] ∧
    (tea.Program.exec (openEditorCmd.command "vi" goodEnv emptyWorld sampleFile)
        (fun err => .editorFinishedMsg err sampleFile) crashEnv noteWorld).1 =
      .editorFinishedMsg (some exitOne) sampleFile ∧
    (tea.Program.exec (openEditorCmd.command "nosuch" bareEnv emptyWorld sampleFile)
        (fun err => .editorFinishedMsg err sampleFile) goodEnv noteWorld).2 = noteWorld :=
  ⟨((openEditorCmd_temp_file_then_editor "vi" fullEnv emptyWorld goodEnv noteWorld).1
      diskFull rfl).2,
    ((openEditorCmd_temp_file_then_editor "vi" goodEnv emptyWorld crashEnv noteWorld).2
      sampleFile rfl).2.1,
    (((openEditorCmd_temp_file_then_editor "vi" goodEnv emptyWorld crashEnv noteWorld).2
      sampleFile rfl).2.2.2.2.1 rfl).1,
    (((openEditorCmd_temp_file_then_editor "vi" goodEnv emptyWorld crashEnv noteWorld).2
      sampleFile rfl).2.2.2.2.1 rfl).2.1 exitOne rfl,
    (((openEditorCmd_temp_file_then_editor "nosuch" bareEnv emptyWorld goodEnv noteWorld).2
      sampleFile rfl).2.2.2.2.2 rfl).1⟩

/-! ## Construction -/

/-- C5, as stated, fails: building the command of `openEditorCmd`, without running it,
creates a temporary file, so the world afterwards differs and holds a file access. -/
theorem openEditorCmd_construction_creates_file :
    (Constructor.build (.openEditorCmd "vi") goodEnv emptyWorld).2 =
      { fs := [("/tmp/note1", [])], trace := [.CreateTemp "/tmp" ""] } ∧
    (Constructor.build (.openEditorCmd "vi") goodEnv emptyWorld).2 ≠ emptyWorld ∧
    (newEvents emptyWorld (Constructor.build (.openEditorCmd "vi") goodEnv emptyWorld).2).countP
      Event.isFileAccess = 1 := by
  refine ⟨rfl, ?_, rfl⟩
  intro h
  have h2 := congrArg World.trace h
  simp [Constructor.build, openEditorCmd, os.CreateTemp, goodEnv, emptyWorld] at h2

/-- C5, amended: building the command of any constructor other than `openEditorCmd` leaves
the world unchanged; building the command of `openEditorCmd` makes one access to the file
system, the creation of the temporary file, and no remote call, no read of a file and no
subprocess. -/
theorem construction_effects (k : Constructor) (env : Env) (w : World) :
    (k.isOpenEditorCmd = false → (k.build env w).2 = w) ∧
    (k.isOpenEditorCmd = true →
      (k.build env w).2.trace = w.trace ++ [.CreateTemp (os.TempDir env) ""]) := by
  cases k <;> simp [Constructor.isOpenEditorCmd, Constructor.build]
  case openEditorCmd editor =>
    unfold openEditorCmd os.CreateTemp
    cases env.CreateTemp w (os.TempDir env) "" <;> simp [World.record]

theorem construction_effects_witness :
    (Constructor.build (.addNoteToIncident goodConfig sampleIncident (some sampleUser)
      sampleFile) goodEnv noteWorld).2 = noteWorld ∧
    (Constructor.build (.acknowledgeIncidents goodConfig [some sampleIncident]) goodEnv
      noteWorld).2 = noteWorld ∧
    (Constructor.build (.openEditorCmd "vi") fullEnv noteWorld).2.trace =
      noteWorld.trace ++ [.CreateTemp (os.TempDir fullEnv) ""] :=
  ⟨(construction_effects (.addNoteToIncident goodConfig sampleIncident (some sampleUser)
      sampleFile) goodEnv noteWorld).1 rfl,
    (construction_effects (.acknowledgeIncidents goodConfig [some sampleIncident]) goodEnv
      noteWorld).1 rfl,
    (construction_effects (.openEditorCmd "vi") fullEnv noteWorld).2 rfl⟩

end Srepd
